import Mathlib

/-!
# Verification of the impact-consequence engine of MeteorMadness2025

Shallow embedding of the core of `app.py`:

* `get_population_in_radius` — population within a circular zone of a global
  population raster (GPW v4), with bounding-box windowing, latitude-corrected
  degree→km distances, a circular mask, and degraded-to-zero error handling;
* `calculate_impact_casualties` — the effects model (energy, crater,
  shockwave, seismic magnitude and radii, tsunami figures) combined with
  population queries into a casualty report;
* the `is_water` bounding-box heuristic and the tsunami-zone gating of the
  rendering layer (both embedded in the HTML/JS template of `app.py`);
* the `/calculate_casualties` route, a thin unvalidated wrapper.

Python floats are idealised as exact rationals (inputs, raster values) and
reals (transcendental intermediates: cube/fourth roots, `log10`, `10**x`).
`math.cos(math.radians(lat))` is not re-modelled as trigonometry: every
function that uses it takes the precomputed value `cosd` as an argument, so
all theorems quantify over it.
-/

namespace MeteorMadness

/-- The open raster dataset (`rasterio.open(... .tif)`): a 2-D grid of
population cells with an affine north-up geographic transform.  `value r c =
none` models a masked / no-data cell (the source reads with `masked=True`);
`some v` an ordinary population value.  The transform has origin `(x0, y0)`,
pixel width `dx` (degrees, positive eastwards) and pixel height `dyAbs`
(degrees, positive; rows go southwards, i.e. the raster transform's
y-pixel-size is `-dyAbs`). -/
structure RasterDataset where
  width : ℕ
  height : ℕ
  x0 : ℚ
  y0 : ℚ
  dx : ℚ
  dyAbs : ℚ
  value : ℕ → ℕ → Option ℚ

/-- Longitude of the center of a cell in column `c`
(`rasterio.transform.xy`, which returns pixel centers). -/
def cellLon (g : RasterDataset) (c : ℕ) : ℚ := g.x0 + (c + 1/2) * g.dx

/-- Latitude of the center of a cell in row `r` (pixel center; rows go
southwards from `y0`). -/
def cellLat (g : RasterDataset) (r : ℕ) : ℚ := g.y0 - (r + 1/2) * g.dyAbs

/-- The set of cells `(row, col)` read by
`dataset.read(1, window=rasterio.windows.from_bounds(min_lon, min_lat,
max_lon, max_lat, dataset.transform))`: the minimal raster window covering
the bounding box, cropped to the dataset extent.  A degenerate or inverted
box (`max ≤ min` in either axis, e.g. radius 0) yields a zero-length window,
hence no cells (`data.size == 0`). -/
noncomputable def windowCells (g : RasterDataset)
    (minLon minLat maxLon maxLat : ℝ) : Finset (ℕ × ℕ) :=
  haveI : Decidable (maxLon ≤ minLon ∨ maxLat ≤ minLat) := Classical.propDecidable _
  if maxLon ≤ minLon ∨ maxLat ≤ minLat then ∅
  else
    Finset.Ico (Int.toNat ⌊((g.y0 : ℝ) - maxLat) / (g.dyAbs : ℝ)⌋)
        (Int.toNat (min ⌈((g.y0 : ℝ) - minLat) / (g.dyAbs : ℝ)⌉ (g.height : ℤ))) ×ˢ
      Finset.Ico (Int.toNat ⌊(minLon - (g.x0 : ℝ)) / (g.dx : ℝ)⌋)
        (Int.toNat (min ⌈(maxLon - (g.x0 : ℝ)) / (g.dx : ℝ)⌉ (g.width : ℤ)))

/-- The per-cell distance of the source:
`sqrt(((xs - lon) * 111.0 * cos(radians(lat)))**2 + ((ys - lat) * 111.0)**2)`,
the degree→km planar approximation with latitude-corrected longitude. -/
noncomputable def cellDistanceKm (g : RasterDataset) (cosd lat lon : ℚ)
    (cell : ℕ × ℕ) : ℝ :=
  Real.sqrt ((((cellLon g cell.2 : ℝ) - (lon : ℝ)) * 111 * (cosd : ℝ)) ^ 2 +
    (((cellLat g cell.1 : ℝ) - (lat : ℝ)) * 111) ^ 2)

/-- `get_population_in_radius(lat, lon, radius_km)` of `app.py`.

`ds = none` models an unavailable raster (the `dataset.read` call raises and
the enclosing `try/except` returns `0`).  `cosd` stands for
`math.cos(math.radians(lat))`; `cosd = 0` models the `ZeroDivisionError` of
`radius_km / (111.0 * cos ...)`, likewise caught and mapped to `0`.
Otherwise: bounding box `lon ± radius/(111·cosd)`, `lat ± radius/111`;
window cells; circular mask `distance ≤ radius_km` (masked/no-data cells
summed as `0` by `np.ma.sum`); result `max(0, sum)`. -/
noncomputable def get_population_in_radius (ds : Option RasterDataset)
    (cosd lat lon : ℚ) (radius_km : ℝ) : ℚ :=
  match ds with
  | none => 0
  | some g =>
    if cosd = 0 then 0
    else
      haveI : DecidablePred
          (fun cell : ℕ × ℕ => cellDistanceKm g cosd lat lon cell ≤ radius_km) :=
        fun _ => Classical.propDecidable _
      max 0 (∑ cell ∈ (windowCells g
          ((lon : ℝ) - radius_km / (111 * (cosd : ℝ)))
          ((lat : ℝ) - radius_km / 111)
          ((lon : ℝ) + radius_km / (111 * (cosd : ℝ)))
          ((lat : ℝ) + radius_km / 111)).filter
            (fun cell => cellDistanceKm g cosd lat lon cell ≤ radius_km),
        (g.value cell.1 cell.2).getD 0)

/-- `velocity_m_s = velocity_kmh * 1000 / 3600` -/
def velocity_m_s (velocity_kmh : ℚ) : ℚ := velocity_kmh * 1000 / 3600

/-- `kinetic_energy = 0.5 * mass_kg * velocity_m_s ** 2` -/
def kinetic_energy (mass_kg velocity_kmh : ℚ) : ℚ :=
  1/2 * mass_kg * velocity_m_s velocity_kmh ^ 2

/-- `crater_diameter_m = diameter_m * 15` -/
def crater_diameter_m (diameter_m : ℚ) : ℚ := diameter_m * 15

/-- `crater_radius_km = crater_diameter_m / 2000` -/
def crater_radius_km (diameter_m : ℚ) : ℚ := crater_diameter_m diameter_m / 2000

/-- `shockwave_radius_km = math.pow(kinetic_energy, 1 / 3) * 0.05 / 1000` -/
noncomputable def shockwave_radius_km (ke : ℚ) : ℝ :=
  (ke : ℝ) ^ ((1 : ℝ) / 3) * 0.05 / 1000

/-- `magnitude = (2 / 3) * math.log10(kinetic_energy / 1000) - 3.2` -/
noncomputable def magnitude (ke : ℚ) : ℝ :=
  2 / 3 * Real.logb 10 ((ke : ℝ) / 1000) - 3.2

/-- `strong_shaking_radius_km = math.pow(10, 0.5 * magnitude - 2.0)` -/
noncomputable def strong_shaking_radius_km (ke : ℚ) : ℝ :=
  (10 : ℝ) ^ (0.5 * magnitude ke - 2.0)

/-- `moderate_shaking_radius_km = math.pow(10, 0.5 * magnitude - 1.3)` -/
noncomputable def moderate_shaking_radius_km (ke : ℚ) : ℝ :=
  (10 : ℝ) ^ (0.5 * magnitude ke - 1.3)

/-- `light_shaking_radius_km = math.pow(10, 0.5 * magnitude - 0.8)` -/
noncomputable def light_shaking_radius_km (ke : ℚ) : ℝ :=
  (10 : ℝ) ^ (0.5 * magnitude ke - 0.8)

/-- `initial_wave_height = k * math.pow(kinetic_energy / (rho * g), 0.25)`
with `rho = 1000`, `g = 9.81`, `k = 0.18`. -/
noncomputable def initial_wave_height (ke : ℚ) : ℝ :=
  0.18 * ((ke : ℝ) / (1000 * 9.81)) ^ (0.25 : ℝ)

/-- `tsunami_radius_km = 500 * (diameter_m / 1000)` -/
def tsunami_radius_km (diameter_m : ℚ) : ℚ := 500 * (diameter_m / 1000)

/-- Python's banker's rounding to an integer (`round` rounds half to even). -/
def roundHalfEven (q : ℚ) : ℤ :=
  if q - ⌊q⌋ < 1/2 then ⌊q⌋
  else if 1/2 < q - ⌊q⌋ then ⌊q⌋ + 1
  else if Even ⌊q⌋ then ⌊q⌋ else ⌊q⌋ + 1

/-- Python's `round(q, n)` on an exact rational. -/
def pyRound (n : ℕ) (q : ℚ) : ℚ := roundHalfEven (q * 10 ^ n) / 10 ^ n

/-- Python's banker's rounding to an integer, on a real. -/
noncomputable def roundHalfEvenR (x : ℝ) : ℤ :=
  haveI : Decidable (x - ⌊x⌋ < 1/2) := Classical.propDecidable _
  haveI : Decidable ((1:ℝ)/2 < x - ⌊x⌋) := Classical.propDecidable _
  if x - ⌊x⌋ < 1/2 then ⌊x⌋
  else if (1:ℝ)/2 < x - ⌊x⌋ then ⌊x⌋ + 1
  else if Even ⌊x⌋ then ⌊x⌋ else ⌊x⌋ + 1

/-- Python's `round(x, n)` on a real. -/
noncomputable def pyRoundR (n : ℕ) (x : ℝ) : ℝ := roundHalfEvenR (x * 10 ^ n) / 10 ^ n

/-- The dict returned by `calculate_impact_casualties`.  Death and population
figures are Python `int`s; `crater_radius_km`, `crater_diameter_m`,
`tsunami_radius_km` and `impact_energy_joules` are exact rationals; the
remaining radii, the wave height and the magnitude are transcendental
reals. -/
structure Report where
  total_deaths : ℤ
  crater_deaths : ℤ
  shockwave_deaths : ℤ
  strong_seismic_deaths : ℤ
  crater_radius_km : ℚ
  crater_diameter_m : ℚ
  shockwave_radius_km : ℝ
  strong_shaking_radius_km : ℝ
  moderate_shaking_radius_km : ℝ
  light_shaking_radius_km : ℝ
  tsunami_wave_height_m : ℝ
  tsunami_radius_km : ℚ
  impact_energy_joules : ℚ
  earthquake_magnitude : ℝ
  pop_crater : ℤ
  pop_shockwave : ℤ
  pop_strong_seismic : ℤ
  pop_moderate_seismic : ℤ
  pop_light_seismic : ℤ

/-- `pop_crater = get_population_in_radius(lat, lon, crater_radius_km)` -/
noncomputable def pop_crater (ds : Option RasterDataset)
    (cosd lat lon diameter_m : ℚ) : ℚ :=
  get_population_in_radius ds cosd lat lon ((crater_radius_km diameter_m : ℚ) : ℝ)

/-- `pop_shockwave = get_population_in_radius(lat, lon, shockwave_radius_km)` -/
noncomputable def pop_shockwave (ds : Option RasterDataset)
    (cosd lat lon mass_kg velocity_kmh : ℚ) : ℚ :=
  get_population_in_radius ds cosd lat lon
    (shockwave_radius_km (kinetic_energy mass_kg velocity_kmh))

/-- `pop_strong_seismic = get_population_in_radius(lat, lon, strong_shaking_radius_km)` -/
noncomputable def pop_strong_seismic (ds : Option RasterDataset)
    (cosd lat lon mass_kg velocity_kmh : ℚ) : ℚ :=
  get_population_in_radius ds cosd lat lon
    (strong_shaking_radius_km (kinetic_energy mass_kg velocity_kmh))

/-- `pop_moderate_seismic = get_population_in_radius(lat, lon, moderate_shaking_radius_km)` -/
noncomputable def pop_moderate_seismic (ds : Option RasterDataset)
    (cosd lat lon mass_kg velocity_kmh : ℚ) : ℚ :=
  get_population_in_radius ds cosd lat lon
    (moderate_shaking_radius_km (kinetic_energy mass_kg velocity_kmh))

/-- `pop_light_seismic = get_population_in_radius(lat, lon, light_shaking_radius_km)` -/
noncomputable def pop_light_seismic (ds : Option RasterDataset)
    (cosd lat lon mass_kg velocity_kmh : ℚ) : ℚ :=
  get_population_in_radius ds cosd lat lon
    (light_shaking_radius_km (kinetic_energy mass_kg velocity_kmh))

/-- `crater_deaths = int(pop_crater)`.  Python `int()` truncates towards
zero; populations are `max(0, ...) ≥ 0`, so truncation is the floor. -/
noncomputable def crater_deaths (ds : Option RasterDataset)
    (cosd lat lon diameter_m : ℚ) : ℤ :=
  ⌊pop_crater ds cosd lat lon diameter_m⌋

/-- `shockwave_deaths = int(max(0, (pop_shockwave - pop_strong_seismic) * 0.3))` -/
noncomputable def shockwave_deaths (ds : Option RasterDataset)
    (cosd lat lon mass_kg velocity_kmh : ℚ) : ℤ :=
  ⌊max 0 ((pop_shockwave ds cosd lat lon mass_kg velocity_kmh -
      pop_strong_seismic ds cosd lat lon mass_kg velocity_kmh) * 0.3)⌋

/-- `strong_seismic_deaths = int(max(0, (pop_strong_seismic - pop_crater) * 0.8))` -/
noncomputable def strong_seismic_deaths (ds : Option RasterDataset)
    (cosd lat lon diameter_m mass_kg velocity_kmh : ℚ) : ℤ :=
  ⌊max 0 ((pop_strong_seismic ds cosd lat lon mass_kg velocity_kmh -
      pop_crater ds cosd lat lon diameter_m) * 0.8)⌋

/-- `total_deaths = crater_deaths + shockwave_deaths + strong_seismic_deaths` -/
noncomputable def total_deaths (ds : Option RasterDataset)
    (cosd lat lon diameter_m mass_kg velocity_kmh : ℚ) : ℤ :=
  crater_deaths ds cosd lat lon diameter_m +
    shockwave_deaths ds cosd lat lon mass_kg velocity_kmh +
    strong_seismic_deaths ds cosd lat lon diameter_m mass_kg velocity_kmh

/-- `calculate_impact_casualties(lat, lon, diameter_m, mass_kg, velocity_kmh)`.

The two `none` branches model the unhandled `ValueError`s of the source:
`math.pow(kinetic_energy, 1/3)` raises on a negative base (line 101), and
`math.log10(kinetic_energy / 1000)` raises on a non-positive argument
(line 104); there is no guard in the source, so the function only returns a
dict when the kinetic energy is positive.  Field values follow lines
134–154 verbatim (with Python `round(x, n)` as `pyRound`/`pyRoundR` and
`int(...)` of the non-negative populations as the floor). -/
noncomputable def calculate_impact_casualties (ds : Option RasterDataset)
    (cosd lat lon diameter_m mass_kg velocity_kmh : ℚ) : Option Report :=
  if kinetic_energy mass_kg velocity_kmh < 0 then none
  else if kinetic_energy mass_kg velocity_kmh = 0 then none
  else some
    { total_deaths := total_deaths ds cosd lat lon diameter_m mass_kg velocity_kmh
      crater_deaths := crater_deaths ds cosd lat lon diameter_m
      shockwave_deaths := shockwave_deaths ds cosd lat lon mass_kg velocity_kmh
      strong_seismic_deaths :=
        strong_seismic_deaths ds cosd lat lon diameter_m mass_kg velocity_kmh
      crater_radius_km := pyRound 3 (crater_radius_km diameter_m)
      crater_diameter_m := pyRound 2 (crater_diameter_m diameter_m)
      shockwave_radius_km :=
        pyRoundR 2 (shockwave_radius_km (kinetic_energy mass_kg velocity_kmh))
      strong_shaking_radius_km :=
        pyRoundR 2 (strong_shaking_radius_km (kinetic_energy mass_kg velocity_kmh))
      moderate_shaking_radius_km :=
        pyRoundR 2 (moderate_shaking_radius_km (kinetic_energy mass_kg velocity_kmh))
      light_shaking_radius_km :=
        pyRoundR 2 (light_shaking_radius_km (kinetic_energy mass_kg velocity_kmh))
      tsunami_wave_height_m :=
        pyRoundR 2 (initial_wave_height (kinetic_energy mass_kg velocity_kmh))
      tsunami_radius_km := pyRound 2 (tsunami_radius_km diameter_m)
      impact_energy_joules := kinetic_energy mass_kg velocity_kmh
      earthquake_magnitude :=
        pyRoundR 2 (magnitude (kinetic_energy mass_kg velocity_kmh))
      pop_crater := ⌊pop_crater ds cosd lat lon diameter_m⌋
      pop_shockwave := ⌊pop_shockwave ds cosd lat lon mass_kg velocity_kmh⌋
      pop_strong_seismic := ⌊pop_strong_seismic ds cosd lat lon mass_kg velocity_kmh⌋
      pop_moderate_seismic := ⌊pop_moderate_seismic ds cosd lat lon mass_kg velocity_kmh⌋
      pop_light_seismic := ⌊pop_light_seismic ds cosd lat lon mass_kg velocity_kmh⌋ }

/-- The `/calculate_casualties` Flask route: it reads `lat`, `lon`,
`diameter`, `mass_kg`, `velocity_kmh` straight out of the request payload
and delegates to `calculate_impact_casualties` — it performs no validation
of any field. -/
noncomputable def calculate_casualties (ds : Option RasterDataset)
    (cosd lat lon diameter mass_kg velocity_kmh : ℚ) : Option Report :=
  calculate_impact_casualties ds cosd lat lon diameter mass_kg velocity_kmh

/-- The fixed continent bounding boxes of the `is_water` frontend function
(`latMin`, `latMax`, `lngMin`, `lngMax`): North America, South America,
Europe, Africa, Asia, Australia, Greenland. -/
def landMasses : List (ℚ × ℚ × ℚ × ℚ) :=
  [(15, 72, -170, -52),
   (-56, 13, -82, -34),
   (36, 71, -10, 40),
   (-35, 37, -18, 52),
   (0, 55, 60, 150),
   (-44, -10, 113, 154),
   (60, 83, -73, -12)]

/-- Closed form of `while (lng > 180) lng -= 360; while (lng < -180) lng += 360;`:
a longitude above 180 is lowered by the least number of full turns that
brings it to at most 180, one below −180 is raised by the least number of
full turns that brings it to at least −180, anything in `[-180, 180]` is
unchanged. -/
def normLng (lng : ℚ) : ℚ :=
  if 180 < lng then lng - 360 * ⌈(lng - 180) / 360⌉
  else if lng < -180 then lng + 360 * ⌈(-180 - lng) / 360⌉
  else lng

/-- The frontend's `is_water(lat, lng)`: normalise the longitude, report
water for `lat > 70 || lat < -60`, otherwise water iff the point lies in
none of the `landMasses` boxes.  A pure (hence deterministic) predicate. -/
def is_water (lat lng : ℚ) : Bool :=
  let lng' := normLng lng
  if 70 < lat ∨ lat < -60 then true
  else ! landMasses.any fun b =>
    decide (b.1 ≤ lat) && decide (lat ≤ b.2.1) &&
      decide (b.2.2.1 ≤ lng') && decide (lng' ≤ b.2.2.2)

/-- The tsunami hazard zone assembled by the rendering layer:
`tsunamiData` stays `null` unless `is_water(lat, lng)`, in which case it
carries the report's `tsunami_wave_height_m` and `tsunami_radius_km`
(`waveHeight`/`radius` in the source). -/
def tsunami_zone (rep : Report) (lat lng : ℚ) : Option (ℝ × ℚ) :=
  if is_water lat lng then some (rep.tsunami_wave_height_m, rep.tsunami_radius_km)
  else none

/-! ## Concrete fixtures used by witnesses -/

/-- A tiny raster with positive pixel sizes and constant population 5,
standing in for the GPW grid in concrete instantiations. -/
def sampleGrid : RasterDataset :=
  { width := 2, height := 2, x0 := -180, y0 := 90, dx := 1, dyAbs := 1,
    value := fun _ _ => some 5 }

/-- The report produced for the scenario `lat = 0`, `lon = 0`,
`diameter_m = 100`, `mass_kg = 2`, `velocity_kmh = 36` (kinetic energy
`100 J`) when the raster is unavailable (`ds = none`). -/
noncomputable def degradedReport : Report :=
  { total_deaths := total_deaths none 1 0 0 100 2 36
    crater_deaths := crater_deaths none 1 0 0 100
    shockwave_deaths := shockwave_deaths none 1 0 0 2 36
    strong_seismic_deaths := strong_seismic_deaths none 1 0 0 100 2 36
    crater_radius_km := pyRound 3 (crater_radius_km 100)
    crater_diameter_m := pyRound 2 (crater_diameter_m 100)
    shockwave_radius_km := pyRoundR 2 (shockwave_radius_km (kinetic_energy 2 36))
    strong_shaking_radius_km :=
      pyRoundR 2 (strong_shaking_radius_km (kinetic_energy 2 36))
    moderate_shaking_radius_km :=
      pyRoundR 2 (moderate_shaking_radius_km (kinetic_energy 2 36))
    light_shaking_radius_km :=
      pyRoundR 2 (light_shaking_radius_km (kinetic_energy 2 36))
    tsunami_wave_height_m := pyRoundR 2 (initial_wave_height (kinetic_energy 2 36))
    tsunami_radius_km := pyRound 2 (tsunami_radius_km 100)
    impact_energy_joules := kinetic_energy 2 36
    earthquake_magnitude := pyRoundR 2 (magnitude (kinetic_energy 2 36))
    pop_crater := ⌊pop_crater none 1 0 0 100⌋
    pop_shockwave := ⌊pop_shockwave none 1 0 0 2 36⌋
    pop_strong_seismic := ⌊pop_strong_seismic none 1 0 0 2 36⌋
    pop_moderate_seismic := ⌊pop_moderate_seismic none 1 0 0 2 36⌋
    pop_light_seismic := ⌊pop_light_seismic none 1 0 0 2 36⌋ }

/-- Reading a population with the raster unavailable always degrades to 0
(the `except` branch of the source). -/
theorem get_population_in_radius_none (cosd lat lon : ℚ) (r : ℝ) :
    get_population_in_radius none cosd lat lon r = 0 := rfl

theorem kinetic_energy_2_36 : kinetic_energy 2 36 = 100 := by
  norm_num [kinetic_energy, velocity_m_s]

/-- Evaluation of the estimator on the degraded fixture scenario. -/
theorem calc_eval_degraded :
    calculate_impact_casualties none 1 0 0 100 2 36 = some degradedReport := by
  unfold calculate_impact_casualties
  rw [if_neg (by rw [kinetic_energy_2_36]; norm_num),
    if_neg (by rw [kinetic_energy_2_36]; norm_num)]
  rfl

/-- Commuting the fatality fraction with the clamp: for a non-negative
fraction, `max(0, x * c) = c * max(0, x)`. -/
theorem max_zero_mul_comm (x c : ℚ) (hc : 0 ≤ c) :
    max 0 (x * c) = c * max 0 x := by
  rcases le_total x 0 with h | h
  · rw [max_eq_left (mul_nonpos_of_nonpos_of_nonneg h hc),
      max_eq_left h, mul_zero]
  · rw [max_eq_right (mul_nonneg h hc), max_eq_right h, mul_comm]

/-! ## Claim theorems -/

/-- C1: for every scenario on which the casualty estimator returns a
report, the report satisfies
`total_deaths = crater_deaths + shockwave_deaths + strong_seismic_deaths`.
The `Report` structure carries no other death field: the
moderate/light-seismic, tsunami and wind zones contribute no deaths. -/
theorem total_deaths_is_sum_of_three_zones (ds : Option RasterDataset)
    (cosd lat lon diameter_m mass_kg velocity_kmh : ℚ) (rep : Report)
    (h : calculate_impact_casualties ds cosd lat lon diameter_m mass_kg velocity_kmh
      = some rep) :
    rep.total_deaths =
      rep.crater_deaths + rep.shockwave_deaths + rep.strong_seismic_deaths := by
  unfold calculate_impact_casualties at h
  split at h
  · exact absurd h (by simp)
  split at h
  · exact absurd h (by simp)
  obtain rfl : _ = rep := Option.some.inj h
  rfl

theorem total_deaths_is_sum_of_three_zones_witness :
    calculate_impact_casualties none 1 0 0 100 2 36 = some degradedReport ∧
      degradedReport.total_deaths = degradedReport.crater_deaths +
        degradedReport.shockwave_deaths + degradedReport.strong_seismic_deaths :=
  ⟨calc_eval_degraded,
    total_deaths_is_sum_of_three_zones none 1 0 0 100 2 36 degradedReport
      calc_eval_degraded⟩

/-- C2: the estimator's death figures are the fixed fatality fractions
applied to `max(0, ·)`-clamped incremental ring populations: crater deaths
are 100 % of the crater-radius population, shockwave deaths 30 % of
`max(0, pop(shockwave) - pop(strong_seismic))` and strong-seismic deaths
80 % of `max(0, pop(strong_seismic) - pop(crater))` (each count truncated
to a whole number of people, as by Python's `int()`). -/
theorem fatality_fractions_applied_to_incremental_rings
    (ds : Option RasterDataset)
    (cosd lat lon diameter_m mass_kg velocity_kmh : ℚ) (rep : Report)
    (h : calculate_impact_casualties ds cosd lat lon diameter_m mass_kg velocity_kmh
      = some rep) :
    rep.crater_deaths = ⌊pop_crater ds cosd lat lon diameter_m⌋ ∧
      rep.shockwave_deaths =
        ⌊0.3 * max 0 (pop_shockwave ds cosd lat lon mass_kg velocity_kmh -
          pop_strong_seismic ds cosd lat lon mass_kg velocity_kmh)⌋ ∧
      rep.strong_seismic_deaths =
        ⌊0.8 * max 0 (pop_strong_seismic ds cosd lat lon mass_kg velocity_kmh -
          pop_crater ds cosd lat lon diameter_m)⌋ := by
  unfold calculate_impact_casualties at h
  split at h
  · exact absurd h (by simp)
  split at h
  · exact absurd h (by simp)
  obtain rfl : _ = rep := Option.some.inj h
  refine ⟨rfl, ?_, ?_⟩
  · show shockwave_deaths ds cosd lat lon mass_kg velocity_kmh = _
    rw [shockwave_deaths, max_zero_mul_comm _ _ (by norm_num)]
  · show strong_seismic_deaths ds cosd lat lon diameter_m mass_kg velocity_kmh = _
    rw [strong_seismic_deaths, max_zero_mul_comm _ _ (by norm_num)]

theorem fatality_fractions_applied_to_incremental_rings_witness :
    calculate_impact_casualties none 1 0 0 100 2 36 = some degradedReport ∧
      degradedReport.crater_deaths = ⌊pop_crater none 1 0 0 100⌋ ∧
      degradedReport.shockwave_deaths =
        ⌊0.3 * max 0 (pop_shockwave none 1 0 0 2 36 -
          pop_strong_seismic none 1 0 0 2 36)⌋ ∧
      degradedReport.strong_seismic_deaths =
        ⌊0.8 * max 0 (pop_strong_seismic none 1 0 0 2 36 -
          pop_crater none 1 0 0 100)⌋ :=
  ⟨calc_eval_degraded,
    fatality_fractions_applied_to_incremental_rings none 1 0 0 100 2 36
      degradedReport calc_eval_degraded⟩

/-- C3: for every valid impact point, querying the population with
`radiusKm = 0` returns 0: the latitude and longitude deltas are both zero,
so the bounding box is degenerate and the extracted window holds no cells.
(The result holds for every raster and every value of
`cos(radians(lat))`.) -/
theorem population_zero_radius (ds : Option RasterDataset) (cosd lat lon : ℚ)
    (hlat₁ : -90 ≤ lat) (hlat₂ : lat ≤ 90) (hlon₁ : -180 ≤ lon) (hlon₂ : lon ≤ 180) :
    get_population_in_radius ds cosd lat lon 0 = 0 := by
  cases ds with
  | none => rfl
  | some g =>
    simp only [get_population_in_radius]
    by_cases hc : cosd = 0
    · rw [if_pos hc]
    · rw [if_neg hc]
      have hw : windowCells g ((lon : ℝ) - 0 / (111 * (cosd : ℝ)))
          ((lat : ℝ) - 0 / 111) ((lon : ℝ) + 0 / (111 * (cosd : ℝ)))
          ((lat : ℝ) + 0 / 111) = ∅ := by
        unfold windowCells
        rw [if_pos (Or.inl (by rw [zero_div]; simp))]
      rw [hw]
      simp

theorem population_zero_radius_witness :
    (-90 : ℚ) ≤ 10 ∧ (10 : ℚ) ≤ 90 ∧ (-180 : ℚ) ≤ 20 ∧ (20 : ℚ) ≤ 180 ∧
      get_population_in_radius (some sampleGrid) 1 10 20 0 = 0 :=
  ⟨by norm_num, by norm_num, by norm_num, by norm_num,
    population_zero_radius (some sampleGrid) 1 10 20 (by norm_num) (by norm_num)
      (by norm_num) (by norm_num)⟩

/-- A larger bounding box reads a superset of the cells (for a raster
whose pixel sizes are positive, as the GPW transform's are). -/
theorem windowCells_subset (g : RasterDataset)
    (hdx : 0 < g.dx) (hdy : 0 < g.dyAbs)
    {minLon minLat maxLon maxLat minLon' minLat' maxLon' maxLat' : ℝ}
    (h1 : minLon' ≤ minLon) (h2 : maxLon ≤ maxLon')
    (h3 : minLat' ≤ minLat) (h4 : maxLat ≤ maxLat') :
    windowCells g minLon minLat maxLon maxLat ⊆
      windowCells g minLon' minLat' maxLon' maxLat' := by
  have hdx' : (0 : ℝ) < (g.dx : ℝ) := by exact_mod_cast hdx
  have hdy' : (0 : ℝ) < (g.dyAbs : ℝ) := by exact_mod_cast hdy
  unfold windowCells
  by_cases hP : maxLon ≤ minLon ∨ maxLat ≤ minLat
  · rw [if_pos hP]
    exact Finset.empty_subset _
  · have hP' := hP
    push_neg at hP'
    have hQ : ¬(maxLon' ≤ minLon' ∨ maxLat' ≤ minLat') := by
      push_neg
      exact ⟨lt_of_le_of_lt h1 (lt_of_lt_of_le hP'.1 h2),
        lt_of_le_of_lt h3 (lt_of_lt_of_le hP'.2 h4)⟩
    rw [if_neg hP, if_neg hQ]
    refine Finset.product_subset_product (Finset.Ico_subset_Ico ?_ ?_)
      (Finset.Ico_subset_Ico ?_ ?_)
    · exact Int.toNat_le_toNat
        (Int.floor_le_floor ((div_le_div_iff_of_pos_right hdy').mpr (by linarith)))
    · exact Int.toNat_le_toNat (min_le_min
        (Int.ceil_le_ceil ((div_le_div_iff_of_pos_right hdy').mpr (by linarith))) le_rfl)
    · exact Int.toNat_le_toNat
        (Int.floor_le_floor ((div_le_div_iff_of_pos_right hdx').mpr (by linarith)))
    · exact Int.toNat_le_toNat (min_le_min
        (Int.ceil_le_ceil ((div_le_div_iff_of_pos_right hdx').mpr (by linarith))) le_rfl)

/-- C4: for a fixed impact point, the population query is monotonically
non-decreasing in the radius, over every raster whose pixel sizes are
positive and whose unmasked cells are non-negative population counts (the
contract of the GPW data source: non-negative counts or a masked no-data
sentinel). -/
theorem population_monotone_in_radius (ds : Option RasterDataset)
    (cosd lat lon : ℚ) (r₁ r₂ : ℝ) (h0 : 0 ≤ r₁) (h12 : r₁ ≤ r₂)
    (hds : ∀ g ∈ ds, 0 < g.dx ∧ 0 < g.dyAbs ∧
      ∀ r c v, g.value r c = some v → 0 ≤ v) :
    get_population_in_radius ds cosd lat lon r₁ ≤
      get_population_in_radius ds cosd lat lon r₂ := by
  cases ds with
  | none => exact le_refl _
  | some g =>
    obtain ⟨hdx, hdy, hval⟩ := hds g rfl
    simp only [get_population_in_radius]
    by_cases hc : cosd = 0
    · rw [if_pos hc, if_pos hc]
    · rw [if_neg hc, if_neg hc]
      refine max_le_max le_rfl (Finset.sum_le_sum_of_subset_of_nonneg ?_ ?_)
      · intro cell hcell
        rw [Finset.mem_filter] at hcell ⊢
        refine ⟨?_, le_trans hcell.2 h12⟩
        rcases lt_trichotomy cosd 0 with hneg | hzero | hpos
        · -- negative cosine: both boxes are inverted, the windows empty
          exfalso
          have hneg' : ((cosd : ℚ) : ℝ) < 0 := by exact_mod_cast hneg
          have hlon : (lon : ℝ) + r₁ / (111 * (cosd : ℝ)) ≤
              (lon : ℝ) - r₁ / (111 * (cosd : ℝ)) := by
            have : r₁ / (111 * (cosd : ℝ)) ≤ 0 :=
              div_nonpos_of_nonneg_of_nonpos h0 (by nlinarith)
            linarith
          have : cell ∈ (∅ : Finset (ℕ × ℕ)) := by
            have hw : windowCells g ((lon : ℝ) - r₁ / (111 * (cosd : ℝ)))
                ((lat : ℝ) - r₁ / 111) ((lon : ℝ) + r₁ / (111 * (cosd : ℝ)))
                ((lat : ℝ) + r₁ / 111) = ∅ := by
              unfold windowCells
              rw [if_pos (Or.inl hlon)]
            exact hw ▸ hcell.1
          simp at this
        · exact absurd hzero hc
        · have hpos' : (0 : ℝ) < 111 * (cosd : ℝ) := by
            have : (0 : ℝ) < ((cosd : ℚ) : ℝ) := by exact_mod_cast hpos
            nlinarith
          have hdiv : r₁ / (111 * (cosd : ℝ)) ≤ r₂ / (111 * (cosd : ℝ)) :=
            (div_le_div_iff_of_pos_right hpos').mpr h12
          have hdiv' : r₁ / (111 : ℝ) ≤ r₂ / 111 :=
            (div_le_div_iff_of_pos_right (by norm_num)).mpr h12
          exact windowCells_subset g hdx hdy (by linarith) (by linarith)
            (by linarith) (by linarith) hcell.1
      · intro cell _ _
        cases hv : g.value cell.1 cell.2 with
        | none => simp
        | some v => simpa using hval cell.1 cell.2 v hv

theorem population_monotone_in_radius_witness :
    (0 : ℝ) ≤ 1 ∧ (1 : ℝ) ≤ 2 ∧
      get_population_in_radius (some sampleGrid) 1 10 20 1 ≤
        get_population_in_radius (some sampleGrid) 1 10 20 2 :=
  ⟨by norm_num, by norm_num,
    population_monotone_in_radius (some sampleGrid) 1 10 20 1 2 (by norm_num)
      (by norm_num) (by
        intro g hg
        obtain rfl : sampleGrid = g := Option.some.inj hg
        refine ⟨by norm_num [sampleGrid], by norm_num [sampleGrid], ?_⟩
        intro r c v hv
        obtain rfl : (5 : ℚ) = v := Option.some.inj hv
        norm_num)⟩

/-- C5 (counterexample): with the raster unavailable, the scenario
`diameter = 100 m`, `mass = 2 kg`, `velocity = 0 km/h` (a valid scenario —
the stated invariant is `velocity ≥ 0` — with zero kinetic energy) makes
the estimator raise `ValueError` out of `math.log10(0)` instead of
returning a structurally complete all-zero report: the claim's
"regardless of impact energy" fails. -/
theorem no_degraded_report_at_zero_energy :
    calculate_impact_casualties none 1 0 0 100 2 0 = none := by
  unfold calculate_impact_casualties
  rw [if_neg (by norm_num [kinetic_energy, velocity_m_s]),
    if_pos (by norm_num [kinetic_energy, velocity_m_s])]

/-- C5 (amended): if the raster data source is unavailable or a raster
read fails, the population query returns 0 for all inputs instead of
raising, and — for every scenario whose kinetic energy is positive — the
estimator still returns a structurally complete report in which every
population figure and every death count (hence `total_deaths`) is 0.  (At
zero kinetic energy no report is produced at all: `log10(0)` raises,
independent of raster availability.) -/
theorem degraded_mode_returns_all_zero_report
    (cosd lat lon diameter_m mass_kg velocity_kmh : ℚ) (radius : ℝ)
    (hke : 0 < kinetic_energy mass_kg velocity_kmh) :
    get_population_in_radius none cosd lat lon radius = 0 ∧
      ∃ rep : Report,
        calculate_impact_casualties none cosd lat lon diameter_m mass_kg velocity_kmh
          = some rep ∧
        rep.pop_crater = 0 ∧ rep.pop_shockwave = 0 ∧ rep.pop_strong_seismic = 0 ∧
        rep.pop_moderate_seismic = 0 ∧ rep.pop_light_seismic = 0 ∧
        rep.crater_deaths = 0 ∧ rep.shockwave_deaths = 0 ∧
        rep.strong_seismic_deaths = 0 ∧ rep.total_deaths = 0 := by
  refine ⟨rfl, ?_⟩
  unfold calculate_impact_casualties
  rw [if_neg (not_lt.mpr hke.le), if_neg hke.ne']
  refine ⟨_, rfl, ?_, ?_, ?_, ?_, ?_, ?_, ?_, ?_, ?_⟩
  all_goals
    simp [total_deaths, crater_deaths, shockwave_deaths, strong_seismic_deaths,
      pop_crater, pop_shockwave, pop_strong_seismic, pop_moderate_seismic,
      pop_light_seismic, get_population_in_radius_none]

theorem degraded_mode_returns_all_zero_report_witness :
    0 < kinetic_energy 2 36 ∧
      (get_population_in_radius none 1 0 0 7 = 0 ∧
        ∃ rep : Report,
          calculate_impact_casualties none 1 0 0 100 2 36 = some rep ∧
          rep.pop_crater = 0 ∧ rep.pop_shockwave = 0 ∧ rep.pop_strong_seismic = 0 ∧
          rep.pop_moderate_seismic = 0 ∧ rep.pop_light_seismic = 0 ∧
          rep.crater_deaths = 0 ∧ rep.shockwave_deaths = 0 ∧
          rep.strong_seismic_deaths = 0 ∧ rep.total_deaths = 0) :=
  ⟨by rw [kinetic_energy_2_36]; norm_num,
    degraded_mode_returns_all_zero_report 1 0 0 100 2 36 7
      (by rw [kinetic_energy_2_36]; norm_num)⟩

/-- C6 (refuting the claimed guards): the numeric degeneracies are *not*
guarded by minimum-epsilon clamps.  With zero velocity (hence zero kinetic
energy) the magnitude computation reaches `math.log10(0)` and the
estimator raises instead of producing a report; and at an exact pole
(`cos(lat) = 0`) the longitude-delta division raises `ZeroDivisionError`,
which is swallowed by the blanket `except` of `get_population_in_radius`
(returning population 0) — not clamped or special-cased. -/
theorem zero_energy_reaches_log10_domain_error :
    calculate_impact_casualties (some sampleGrid) 1 0 0 100 1 0 = none ∧
      get_population_in_radius (some sampleGrid) 0 90 0 5 = 0 := by
  constructor
  · unfold calculate_impact_casualties
    rw [if_neg (by norm_num [kinetic_energy, velocity_m_s]),
      if_pos (by norm_num [kinetic_energy, velocity_m_s])]
  · simp [get_population_in_radius]

/-- The report produced for the *invalid* scenario `diameter_m = -100`
(non-positive diameter), `mass_kg = 2`, `velocity_kmh = 36` at `(0, 0)`
with the raster unavailable. -/
noncomputable def invalidScenarioReport : Report :=
  { total_deaths := total_deaths none 1 0 0 (-100) 2 36
    crater_deaths := crater_deaths none 1 0 0 (-100)
    shockwave_deaths := shockwave_deaths none 1 0 0 2 36
    strong_seismic_deaths := strong_seismic_deaths none 1 0 0 (-100) 2 36
    crater_radius_km := pyRound 3 (crater_radius_km (-100))
    crater_diameter_m := pyRound 2 (crater_diameter_m (-100))
    shockwave_radius_km := pyRoundR 2 (shockwave_radius_km (kinetic_energy 2 36))
    strong_shaking_radius_km :=
      pyRoundR 2 (strong_shaking_radius_km (kinetic_energy 2 36))
    moderate_shaking_radius_km :=
      pyRoundR 2 (moderate_shaking_radius_km (kinetic_energy 2 36))
    light_shaking_radius_km :=
      pyRoundR 2 (light_shaking_radius_km (kinetic_energy 2 36))
    tsunami_wave_height_m := pyRoundR 2 (initial_wave_height (kinetic_energy 2 36))
    tsunami_radius_km := pyRound 2 (tsunami_radius_km (-100))
    impact_energy_joules := kinetic_energy 2 36
    earthquake_magnitude := pyRoundR 2 (magnitude (kinetic_energy 2 36))
    pop_crater := ⌊pop_crater none 1 0 0 (-100)⌋
    pop_shockwave := ⌊pop_shockwave none 1 0 0 2 36⌋
    pop_strong_seismic := ⌊pop_strong_seismic none 1 0 0 2 36⌋
    pop_moderate_seismic := ⌊pop_moderate_seismic none 1 0 0 2 36⌋
    pop_light_seismic := ⌊pop_light_seismic none 1 0 0 2 36⌋ }

/-- C7 (refuting the claimed validation): the `/calculate_casualties`
endpoint performs no validation whatsoever.  The invalid scenario
`diameter = -100 m` (violating `diameter > 0`) is not rejected: the
computation proceeds and returns an ordinary report — with a *negative*
crater diameter of −1500 m. -/
theorem invalid_scenario_not_rejected :
    calculate_casualties none 1 0 0 (-100) 2 36 = some invalidScenarioReport ∧
      invalidScenarioReport.crater_diameter_m = -1500 := by
  constructor
  · unfold calculate_casualties calculate_impact_casualties
    rw [if_neg (by rw [kinetic_energy_2_36]; norm_num),
      if_neg (by rw [kinetic_energy_2_36]; norm_num)]
    rfl
  · show pyRound 2 (crater_diameter_m (-100)) = -1500
    norm_num [pyRound, roundHalfEven, crater_diameter_m]

/-- C8: the tsunami hazard zone — wave height
`0.18 * (E/(1000·9.81))^0.25` and radius `500 * (diameter/1000)`, both as
carried (rounded to two decimals) by the report — is produced only when the
impact point is classified as water; for a land impact point no tsunami
zone is produced.  (The report itself always carries the two tsunami
figures; the gating happens where the hazard zones are assembled.) -/
theorem tsunami_zone_only_if_water (ds : Option RasterDataset)
    (cosd lat lon diameter_m mass_kg velocity_kmh : ℚ) (rep : Report)
    (h : calculate_impact_casualties ds cosd lat lon diameter_m mass_kg velocity_kmh
      = some rep) :
    (tsunami_zone rep lat lon).isSome = is_water lat lon ∧
      (is_water lat lon = false → tsunami_zone rep lat lon = none) ∧
      rep.tsunami_wave_height_m =
        pyRoundR 2 (initial_wave_height (kinetic_energy mass_kg velocity_kmh)) ∧
      rep.tsunami_radius_km = pyRound 2 (tsunami_radius_km diameter_m) := by
  unfold calculate_impact_casualties at h
  split at h
  · exact absurd h (by simp)
  split at h
  · exact absurd h (by simp)
  obtain rfl : _ = rep := Option.some.inj h
  refine ⟨?_, ?_, rfl, rfl⟩
  · unfold tsunami_zone
    cases hw : is_water lat lon <;> simp [hw]
  · intro hw
    unfold tsunami_zone
    rw [hw]
    rfl

theorem tsunami_zone_only_if_water_witness :
    calculate_impact_casualties none 1 0 0 100 2 36 = some degradedReport ∧
      is_water 0 0 = false ∧
      (tsunami_zone degradedReport 0 0).isSome = is_water 0 0 ∧
      tsunami_zone degradedReport 0 0 = none :=
  ⟨calc_eval_degraded, by decide,
    (tsunami_zone_only_if_water none 1 0 0 100 2 36 degradedReport
      calc_eval_degraded).1,
    (tsunami_zone_only_if_water none 1 0 0 100 2 36 degradedReport
      calc_eval_degraded).2.1 (by decide)⟩

/-- The longitude-normalisation loops land in `[-180, 180]`. -/
theorem normLng_bounds (x : ℚ) : -180 ≤ normLng x ∧ normLng x ≤ 180 := by
  unfold normLng
  split
  next h =>
    have h1 : (x - 180) / 360 ≤ ((⌈(x - 180) / 360⌉ : ℤ) : ℚ) := Int.le_ceil _
    have h2 : ((⌈(x - 180) / 360⌉ : ℤ) : ℚ) < (x - 180) / 360 + 1 :=
      Int.ceil_lt_add_one _
    constructor <;> linarith
  next h =>
    split
    next h' =>
      have h1 : (-180 - x) / 360 ≤ ((⌈(-180 - x) / 360⌉ : ℤ) : ℚ) := Int.le_ceil _
      have h2 : ((⌈(-180 - x) / 360⌉ : ℤ) : ℚ) < (-180 - x) / 360 + 1 :=
        Int.ceil_lt_add_one _
      constructor <;> linarith
    next h' =>
      push_neg at h h'
      exact ⟨h', h⟩

/-- The normalised longitude differs from the input by a whole number of
full turns. -/
theorem normLng_congr (x : ℚ) : ∃ j : ℤ, normLng x = x - 360 * j := by
  unfold normLng
  split
  · exact ⟨⌈(x - 180) / 360⌉, rfl⟩
  split
  · exact ⟨-⌈(-180 - x) / 360⌉, by push_cast; ring⟩
  · exact ⟨0, by ring⟩

/-- `is_water` only looks at the longitude through `normLng`. -/
theorem is_water_norm_eq (lat : ℚ) {a b : ℚ} (h : normLng a = normLng b) :
    is_water lat a = is_water lat b := by
  unfold is_water
  rw [h]

/-- Both seam longitudes (±180°) lie outside every continent box, so both
classify as water for every latitude. -/
theorem is_water_at_seam (lat : ℚ) :
    is_water lat 180 = true ∧ is_water lat (-180) = true := by
  constructor <;>
    · unfold is_water
      split
      · rfl
      · norm_num [normLng, landMasses]

/-- C9: the water classifier is a pure function (hence deterministic) and
is invariant under longitude normalisation: shifting the longitude by any
whole number of full turns (±360k) never changes the classification. -/
theorem is_water_invariant_under_longitude_normalization
    (lat lng : ℚ) (k : ℤ) :
    is_water lat (lng + 360 * k) = is_water lat lng := by
  obtain ⟨j1, hj1⟩ := normLng_congr lng
  obtain ⟨j2, hj2⟩ := normLng_congr (lng + 360 * k)
  obtain ⟨hb1l, hb1u⟩ := normLng_bounds lng
  obtain ⟨hb2l, hb2u⟩ := normLng_bounds (lng + 360 * k)
  have hdiff : normLng (lng + 360 * k) - normLng lng
      = 360 * ((k - j2 + j1 : ℤ) : ℚ) := by
    rw [hj1, hj2]
    push_cast
    ring
  have hm1 : -1 ≤ k - j2 + j1 ∧ k - j2 + j1 ≤ 1 := by
    constructor <;>
      · have : (-1 : ℚ) ≤ ((k - j2 + j1 : ℤ) : ℚ) ∧ ((k - j2 + j1 : ℤ) : ℚ) ≤ 1 := by
          constructor <;> nlinarith
        first
          | exact_mod_cast this.1
          | exact_mod_cast this.2
  set m : ℤ := k - j2 + j1 with hm
  obtain ⟨hml, hmu⟩ := hm1
  interval_cases m
  · -- normLng (lng + 360k) = normLng lng - 360: forces the ±180 seam
    have ha : normLng lng = 180 := by
      have := hdiff
      push_cast at this
      linarith
    have hb : normLng (lng + 360 * k) = -180 := by
      have := hdiff
      push_cast at this
      linarith
    rw [is_water_norm_eq lat (a := lng + 360 * k) (b := -180) (by
        rw [hb]; norm_num [normLng]),
      is_water_norm_eq lat (a := lng) (b := 180) (by rw [ha]; norm_num [normLng]),
      (is_water_at_seam lat).1, (is_water_at_seam lat).2]
  · -- same normalised longitude
    have : normLng (lng + 360 * k) = normLng lng := by
      have := hdiff
      push_cast at this
      linarith
    exact is_water_norm_eq lat this
  · -- the mirrored seam case
    have ha : normLng lng = -180 := by
      have := hdiff
      push_cast at this
      linarith
    have hb : normLng (lng + 360 * k) = 180 := by
      have := hdiff
      push_cast at this
      linarith
    rw [is_water_norm_eq lat (a := lng + 360 * k) (b := 180) (by
        rw [hb]; norm_num [normLng]),
      is_water_norm_eq lat (a := lng) (b := -180) (by rw [ha]; norm_num [normLng]),
      (is_water_at_seam lat).1, (is_water_at_seam lat).2]

/-- C10: the three seismic radii of any positive-energy scenario are
strictly ordered `strong < moderate < light`: the exponent offsets
`-2.0 < -1.3 < -0.8` are applied to the same magnitude under the strictly
increasing map `10^x`. -/
theorem seismic_radii_strictly_nested (mass_kg velocity_kmh : ℚ)
    (h : 0 < kinetic_energy mass_kg velocity_kmh) :
    strong_shaking_radius_km (kinetic_energy mass_kg velocity_kmh) <
        moderate_shaking_radius_km (kinetic_energy mass_kg velocity_kmh) ∧
      moderate_shaking_radius_km (kinetic_energy mass_kg velocity_kmh) <
        light_shaking_radius_km (kinetic_energy mass_kg velocity_kmh) := by
  unfold strong_shaking_radius_km moderate_shaking_radius_km
    light_shaking_radius_km
  constructor <;>
    exact (Real.rpow_lt_rpow_left_iff (by norm_num)).mpr (by norm_num)

theorem seismic_radii_strictly_nested_witness :
    0 < kinetic_energy 2 36 ∧
      strong_shaking_radius_km (kinetic_energy 2 36) <
        moderate_shaking_radius_km (kinetic_energy 2 36) ∧
      moderate_shaking_radius_km (kinetic_energy 2 36) <
        light_shaking_radius_km (kinetic_energy 2 36) :=
  ⟨by rw [kinetic_energy_2_36]; norm_num,
    seismic_radii_strictly_nested 2 36 (by rw [kinetic_energy_2_36]; norm_num)⟩

end MeteorMadness
